import Mathlib

/-!
Verification development for the ECLI metadata dashboard
(`dashboard/dashboard.py`, schema from `scripts/init_database.py`).

The SQLite-backed query core is shallowly embedded: tables are Lean lists of
row structures, SQL queries become list operations (`filter`, stable sort,
`take`), nullable columns are `Option`, Python exceptions are `Except`, and
`json.loads` on the flat string-to-int / string-to-string objects stored by
this system is a small executable decoder.  Connection lifecycle (`conn.close()`
call sites) and query execution are tracked explicitly in traced variants.
-/

namespace Ecli

/-! ## Generic list utilities: whitespace, byte-lexicographic order, stable sort -/

/-- Drop leading JSON/Python whitespace characters. -/
def skipWs : List Char → List Char
  | [] => []
  | c :: cs =>
    if c = ' ' ∨ c = '\t' ∨ c = '\n' ∨ c = '\r' then skipWs cs else c :: cs

/-- Byte-lexicographic `≤` on character lists: the memcmp comparison that SQLite
performs on TEXT values (code-point order coincides with UTF-8 byte order). -/
def charsLe : List Char → List Char → Bool
  | [], _ => true
  | _ :: _, [] => false
  | a :: as, b :: bs =>
    if a.toNat < b.toNat then true
    else if b.toNat < a.toNat then false
    else charsLe as bs

/-- Byte-lexicographic `≤` on strings. -/
def strLe (a b : String) : Bool := charsLe a.data b.data

theorem charsLe_total (a b : List Char) : charsLe a b = true ∨ charsLe b a = true := by
  induction a generalizing b with
  | nil => left; rfl
  | cons x xs ih =>
    cases b with
    | nil => right; rfl
    | cons y ys =>
      by_cases h1 : x.toNat < y.toNat
      · left; simp [charsLe, h1]
      · by_cases h2 : y.toNat < x.toNat
        · right; simp [charsLe, h2]
        · rcases ih ys with h | h
          · left; simp [charsLe, h1, h2, h]
          · right; simp [charsLe, h1, h2, h]

theorem charsLe_trans (a b c : List Char) (hab : charsLe a b = true)
    (hbc : charsLe b c = true) : charsLe a c = true := by
  induction a generalizing b c with
  | nil => rfl
  | cons x xs ih =>
    cases b with
    | nil => simp [charsLe] at hab
    | cons y ys =>
      cases c with
      | nil => simp [charsLe] at hbc
      | cons z zs =>
        simp only [charsLe] at hab hbc ⊢
        by_cases hxy : x.toNat < y.toNat
        · by_cases hyz : y.toNat < z.toNat
          · simp [show x.toNat < z.toNat from Nat.lt_trans hxy hyz]
          · by_cases hzy : z.toNat < y.toNat
            · simp [hyz, hzy] at hbc
            · have : y.toNat = z.toNat := Nat.le_antisymm (Nat.le_of_not_lt hzy) (Nat.le_of_not_lt hyz)
              simp [show x.toNat < z.toNat from this ▸ hxy]
        · by_cases hyx : y.toNat < x.toNat
          · simp [hxy, hyx] at hab
          · have hxye : x.toNat = y.toNat := Nat.le_antisymm (Nat.le_of_not_lt hyx) (Nat.le_of_not_lt hxy)
            by_cases hyz : y.toNat < z.toNat
            · simp [show x.toNat < z.toNat from hxye ▸ hyz]
            · by_cases hzy : z.toNat < y.toNat
              · simp [hyz, hzy] at hbc
              · simp only [hxy, hyx, if_neg, ite_false] at hab
                simp only [hyz, hzy, ite_false] at hbc
                have hxz : ¬ x.toNat < z.toNat := by omega
                have hzx : ¬ z.toNat < x.toNat := by omega
                simp [hxz, hzx, ih ys zs hab hbc]

theorem strLe_total (a b : String) : strLe a b = true ∨ strLe b a = true :=
  charsLe_total a.data b.data

theorem strLe_trans (a b c : String) (hab : strLe a b = true) (hbc : strLe b c = true) :
    strLe a c = true :=
  charsLe_trans a.data b.data c.data hab hbc

/-- Stable insertion into a sorted list (incoming element goes before equals). -/
def insertBy (le : α → α → Bool) (x : α) : List α → List α
  | [] => [x]
  | y :: ys => if le x y then x :: y :: ys else y :: insertBy le x ys

/-- Stable insertion sort; models a deterministic, stable realization of SQL
`ORDER BY` over the scan order of the underlying table. -/
def sortBy (le : α → α → Bool) : List α → List α
  | [] => []
  | x :: xs => insertBy le x (sortBy le xs)

theorem mem_insertBy (le : α → α → Bool) (x a : α) (l : List α) :
    a ∈ insertBy le x l ↔ a = x ∨ a ∈ l := by
  induction l with
  | nil => simp [insertBy]
  | cons y ys ih =>
    by_cases h : le x y = true
    · rw [show insertBy le x (y :: ys) = x :: y :: ys by simp [insertBy, h]]
      simp
    · rw [show insertBy le x (y :: ys) = y :: insertBy le x ys by simp [insertBy, h]]
      simp only [List.mem_cons, ih]
      tauto

theorem insertBy_perm (le : α → α → Bool) (x : α) (l : List α) :
    List.Perm (insertBy le x l) (x :: l) := by
  induction l with
  | nil => simp [insertBy]
  | cons y ys ih =>
    by_cases h : le x y = true
    · simp [insertBy, h]
    · simp only [insertBy, h, ite_false]
      exact (ih.cons y).trans (List.Perm.swap x y ys)

theorem sortBy_perm (le : α → α → Bool) (l : List α) :
    List.Perm (sortBy le l) l := by
  induction l with
  | nil => simp [sortBy]
  | cons x xs ih =>
    exact (insertBy_perm le x (sortBy le xs)).trans (ih.cons x)

theorem mem_sortBy (le : α → α → Bool) (a : α) (l : List α) :
    a ∈ sortBy le l ↔ a ∈ l :=
  (sortBy_perm le l).mem_iff

theorem pairwise_insertBy (le : α → α → Bool)
    (tot : ∀ a b, le a b = true ∨ le b a = true)
    (trans : ∀ a b c, le a b = true → le b c = true → le a c = true)
    (x : α) (l : List α) (h : List.Pairwise (fun a b => le a b = true) l) :
    List.Pairwise (fun a b => le a b = true) (insertBy le x l) := by
  induction l with
  | nil => simp [insertBy]
  | cons y ys ih =>
    rcases List.pairwise_cons.mp h with ⟨hy, hys⟩
    by_cases hxy : le x y = true
    · rw [show insertBy le x (y :: ys) = x :: y :: ys by simp [insertBy, hxy]]
      refine List.pairwise_cons.mpr ⟨?_, h⟩
      intro z hz
      rcases List.mem_cons.mp hz with rfl | hz
      · exact hxy
      · exact trans x y z hxy (hy z hz)
    · have hyx : le y x = true := (tot x y).resolve_left hxy
      rw [show insertBy le x (y :: ys) = y :: insertBy le x ys by simp [insertBy, hxy]]
      refine List.pairwise_cons.mpr ⟨?_, ih hys⟩
      intro z hz
      rcases (mem_insertBy le x z ys).mp hz with rfl | hz
      · exact hyx
      · exact hy z hz

theorem pairwise_sortBy (le : α → α → Bool)
    (tot : ∀ a b, le a b = true ∨ le b a = true)
    (trans : ∀ a b c, le a b = true → le b c = true → le a c = true)
    (l : List α) : List.Pairwise (fun a b => le a b = true) (sortBy le l) := by
  induction l with
  | nil => exact List.Pairwise.nil
  | cons x xs ih => exact pairwise_insertBy le tot trans x (sortBy le xs) ih

/-! ## SQLite `ORDER BY ... DESC` keys

SQLite sorts NULL below every non-NULL value, so `DESC` puts NULLs last and
non-NULL TEXT values in descending binary order. -/

/-- Key for `ORDER BY <nullable text column> DESC`: `textDescLe a b` means `a`
may be placed before `b`. -/
def textDescLe (a b : Option String) : Bool :=
  match a, b with
  | none, none => true
  | none, some _ => false
  | some _, none => true
  | some x, some y => strLe y x

/-- Key for `ORDER BY <integer id> DESC`. -/
def natDescLe (a b : Nat) : Bool := decide (b ≤ a)

theorem textDescLe_total (a b : Option String) :
    textDescLe a b = true ∨ textDescLe b a = true := by
  cases a with
  | none => cases b with
    | none => left; rfl
    | some y => right; rfl
  | some x => cases b with
    | none => left; rfl
    | some y => exact (strLe_total y x).imp id id

theorem textDescLe_trans (a b c : Option String) (hab : textDescLe a b = true)
    (hbc : textDescLe b c = true) : textDescLe a c = true := by
  cases a with
  | none => cases b with
    | none => cases c with
      | none => rfl
      | some z => exact hbc
    | some y => exact absurd hab (by simp [textDescLe])
  | some x => cases c with
    | none => rfl
    | some z =>
      cases b with
      | none => exact absurd hbc (by simp [textDescLe])
      | some y => exact strLe_trans z y x hbc hab

theorem natDescLe_total (a b : Nat) : natDescLe a b = true ∨ natDescLe b a = true := by
  simp only [natDescLe, decide_eq_true_eq]; omega

theorem natDescLe_trans (a b c : Nat) (hab : natDescLe a b = true)
    (hbc : natDescLe b c = true) : natDescLe a c = true := by
  simp only [natDescLe, decide_eq_true_eq] at *; omega

/-! ## Python `int(str)`

Model of the CPython `int()` constructor on the string arguments relevant
here: surrounding whitespace is stripped, an optional sign precedes one or
more decimal digits; anything else raises `ValueError`. -/

/-- Value of a list of decimal digits. -/
def digitsVal (ds : List Char) : Nat :=
  ds.foldl (fun acc c => acc * 10 + (c.toNat - 48)) 0

/-- A nonempty all-digit string, or failure. -/
def decDigits? (ds : List Char) : Option Nat :=
  if ds ≠ [] ∧ ds.all Char.isDigit then some (digitsVal ds) else none

/-- Python `int(s)` on a string `s`: `some n` on success, `none` when
`ValueError` would be raised. -/
def pyInt? (s : String) : Option Int :=
  let cs := (skipWs ((skipWs s.data).reverse)).reverse
  match cs with
  | '-' :: ds => (decDigits? ds).map (fun n => -(n : Int))
  | '+' :: ds => (decDigits? ds).map (fun n => (n : Int))
  | ds => (decDigits? ds).map (fun n => (n : Int))

/-! ## `json.loads` on the flat objects stored by this system

The serialized payloads this program writes and reads (`courts`, `years`,
`pdf_metadata`) are flat JSON objects whose values are integers or strings.
The decoder below parses exactly that fragment (escape-free keys/strings,
integer numbers, surrounding whitespace); any other payload is a decode
failure, modelling `json.JSONDecodeError`. -/

/-- A JSON scalar value: integer or string. -/
inductive JVal where
  | vint (n : Int)
  | vstr (s : String)
deriving Repr, DecidableEq

/-- Parse the remainder of a JSON string after the opening quote, up to the
closing quote (escape-free fragment). Returns the body and the rest. -/
def parseStringBody : List Char → Option (List Char × List Char)
  | [] => none
  | c :: cs =>
    if c = '"' then some ([], cs)
    else match parseStringBody cs with
      | some (body, rest) => some (c :: body, rest)
      | none => none

/-- Parse one or more decimal digits from the front. -/
def parseDigits (cs : List Char) : Option (Nat × List Char) :=
  let ds := cs.takeWhile Char.isDigit
  if ds = [] then none else some (digitsVal ds, cs.dropWhile Char.isDigit)

/-- Parse a JSON integer: optional minus sign then digits. -/
def parseNumber (cs : List Char) : Option (Int × List Char) :=
  match cs with
  | '-' :: rest => (parseDigits rest).map (fun p => (-(p.1 : Int), p.2))
  | _ => (parseDigits cs).map (fun p => ((p.1 : Int), p.2))

/-- Parse a JSON scalar (string or integer). -/
def parseJVal (cs : List Char) : Option (JVal × List Char) :=
  match cs with
  | '"' :: rest => (parseStringBody rest).map (fun p => (JVal.vstr (String.mk p.1), p.2))
  | _ => (parseNumber cs).map (fun p => (JVal.vint p.1, p.2))

/-- Parse the members of a nonempty JSON object, consuming the closing brace.
`fuel` bounds the number of members; callers pass the input length. -/
def parsePairs (fuel : Nat) (cs : List Char) : Option (List (String × JVal) × List Char) :=
  match fuel with
  | 0 => none
  | fuel + 1 =>
    match skipWs cs with
    | '"' :: rest =>
      match parseStringBody rest with
      | some (key, r1) =>
        match skipWs r1 with
        | ':' :: r2 =>
          match parseJVal (skipWs r2) with
          | some (v, r3) =>
            match skipWs r3 with
            | ',' :: r4 =>
              match parsePairs fuel r4 with
              | some (ps, r5) => some ((String.mk key, v) :: ps, r5)
              | none => none
            | '\x7d' :: r4 => some ([(String.mk key, v)], r4)
            | _ => none
          | none => none
        | _ => none
      | none => none
    | _ => none

/-- Model of `json.loads(s)` expecting a flat object: `some` of the key/value pairs in
textual order on success, `none` when `json.JSONDecodeError` would be raised
(or the payload falls outside the flat-object fragment this system stores). -/
def json_loads_obj (s : String) : Option (List (String × JVal)) :=
  match skipWs s.data with
  | '\x7b' :: rest =>
    match skipWs rest with
    | '\x7d' :: r => if skipWs r = [] then some [] else none
    | _ =>
      match parsePairs s.length rest with
      | some (ps, r) => if skipWs r = [] then some ps else none
      | none => none
  | _ => none

/-! ## Python dict model

Row dictionaries (`dict(row)`) and their mutation in `get_document` are
modelled as association lists with unique keys in insertion order; `dictSet`
is Python dict assignment (update first matching key in place, else append),
`dictDel` is `del`, `dictGet` is `.get`. -/

/-- A Python scalar value as it appears in the row dictionaries here. -/
inductive PyVal where
  | vnone
  | vint (n : Int)
  | vstr (s : String)
deriving Repr, DecidableEq

/-- Python `d.get(k)`: the value at `k`, if present. -/
def dictGet (d : List (String × PyVal)) (k : String) : Option PyVal :=
  (d.find? (fun kv => kv.1 == k)).map (fun kv => kv.2)

/-- Python `d[k] = v` on a dict with unique keys: replace the first binding of `k`,
or append a new one. -/
def dictSet (d : List (String × PyVal)) (k : String) (v : PyVal) :
    List (String × PyVal) :=
  match d with
  | [] => [(k, v)]
  | kv :: rest => if kv.1 == k then (kv.1, v) :: rest else kv :: dictSet rest k v

/-- Python `del d[k]`: remove every binding of `k` (at most one on unique-key dicts). -/
def dictDel (d : List (String × PyVal)) (k : String) : List (String × PyVal) :=
  match d with
  | [] => []
  | kv :: rest => if kv.1 == k then dictDel rest k else kv :: dictDel rest k

/-- Python truthiness of the scalar values above (`None`, `0`, `""` are falsy). -/
def pyTruthy : PyVal → Bool
  | .vnone => false
  | .vint n => n != 0
  | .vstr s => s != ""

/-- A decoded JSON scalar as a Python value. -/
def jToPy : JVal → PyVal
  | .vint n => .vint n
  | .vstr s => .vstr s

theorem dictGet_set_self (d : List (String × PyVal)) (k : String) (v : PyVal) :
    dictGet (dictSet d k v) k = some v := by
  induction d with
  | nil => simp [dictGet, dictSet, List.find?]
  | cons kv rest ih =>
    by_cases h : kv.1 == k
    · simp [dictGet, dictSet, h, List.find?]
    · simp only [dictSet, h, Bool.false_eq_true, ite_false]
      simpa [dictGet, List.find?, h] using ih

theorem dictGet_set_ne (d : List (String × PyVal)) (k k2 : String) (v : PyVal)
    (h : k2 ≠ k) : dictGet (dictSet d k v) k2 = dictGet d k2 := by
  induction d with
  | nil =>
    simp [dictGet, dictSet, List.find?, show (k == k2) = false from by
      simp [Ne.symm h]]
  | cons kv rest ih =>
    by_cases hk : kv.1 == k
    · have hkk : kv.1 = k := by simpa using hk
      have : (kv.1 == k2) = false := by simp [hkk, Ne.symm h]
      simp [dictGet, dictSet, hk, List.find?, this]
    · simp only [dictSet, hk, Bool.false_eq_true, ite_false]
      by_cases hk2 : kv.1 == k2
      · simp [dictGet, List.find?, hk2]
      · simpa [dictGet, List.find?, hk2] using ih

theorem dictGet_del_self (d : List (String × PyVal)) (k : String) :
    dictGet (dictDel d k) k = none := by
  induction d with
  | nil => simp [dictGet, dictDel]
  | cons kv rest ih =>
    by_cases h : kv.1 == k
    · simpa [dictDel, h] using ih
    · simp only [dictDel, h, Bool.false_eq_true, ite_false]
      simpa [dictGet, List.find?, h] using ih

theorem dictGet_del_ne (d : List (String × PyVal)) (k k2 : String) (h : k2 ≠ k) :
    dictGet (dictDel d k) k2 = dictGet d k2 := by
  induction d with
  | nil => simp [dictGet, dictDel]
  | cons kv rest ih =>
    by_cases hk : kv.1 == k
    · have hkk : kv.1 = k := by simpa using hk
      have hne2 : (kv.1 == k2) = false := by simp [hkk, Ne.symm h]
      simp only [dictDel, hk, ite_true]
      simpa [dictGet, List.find?, hne2] using ih
    · simp only [dictDel, hk, Bool.false_eq_true, ite_false]
      by_cases hk2 : kv.1 == k2
      · simp [dictGet, List.find?, hk2]
      · simpa [dictGet, List.find?, hk2] using ih

/-! ## Data model

Tables from `scripts/init_database.py`.  `NOT NULL` columns are plain types,
nullable columns are `Option`; `year` is a TEXT column. -/

/-- A row of the `documents` table. `ecli_id` is declared `TEXT UNIQUE NOT
NULL` but is kept optional here to mirror the dictionary-level null handling
in `get_recent_documents`. -/
structure DocumentRow where
  id : Nat
  ecli_id : Option String
  court : Option String
  year : Option String
  case_number : Option String
  file_path : Option String
  added_date : Option String
  last_updated : Option String
deriving Repr, DecidableEq

/-- A row of the `document_metrics` table. -/
structure MetricsRow where
  id : Nat
  document_id : Nat
  page_count : Option Int
  file_size : Option Int
  document_date : Option String
  language : Option String
  judge : Option String
  pdf_metadata : Option String
deriving Repr, DecidableEq

/-- A row of the `corpus_stats` table; `courts` and `years` hold serialized
mappings. -/
structure CorpusStatsRow where
  id : Nat
  total_documents : Option Int
  total_pages : Option Int
  total_size_bytes : Option Int
  courts : Option String
  years : Option String
  generated_at : Option String
deriving Repr, DecidableEq

/-- The store state read by the dashboard core. -/
structure DB where
  documents : List DocumentRow
  document_metrics : List MetricsRow
  corpus_stats : List CorpusStatsRow
deriving Repr, DecidableEq

/-- SQL `FROM documents d LEFT JOIN document_metrics m ON d.id = m.document_id`:
one output row per matching metrics row, or a single row with a NULL metrics
side when none matches, in table-scan order. -/
def leftJoin (db : DB) : List (DocumentRow × Option MetricsRow) :=
  db.documents.flatMap fun d =>
    match db.document_metrics.filter (fun m => m.document_id == d.id) with
    | [] => [(d, none)]
    | ms => ms.map (fun m => (d, some m))

/-! ## Stats snapshot resolver: `get_corpus_stats` (dashboard.py lines 43-107) -/

/-- Value of the `courts`/`years` field in the returned statistics dict:
either the raw stored value passed through unchanged, or a decoded
(possibly substituted-empty) mapping. -/
inductive StatsField where
  | raw (v : Option String)
  | mapping (m : List (String × JVal))
deriving Repr, DecidableEq

/-- The statistics dictionary returned by `get_corpus_stats` (timestamp
field omitted; it carries no claim-relevant information). -/
structure CorpusStats where
  total_documents : Option Int
  total_pages : Option Int
  total_size_bytes : Option Int
  courts : StatsField
  years : StatsField
deriving Repr, DecidableEq

/-- Lines 66-76: `if stats.get(field): try: json.loads ... except: \x7b\x7d`.
A falsy stored value (NULL or `""`) is left untouched; a truthy one is
decoded, with decode failure replaced by the empty mapping. -/
def decodeStatsField (v : Option String) : StatsField :=
  match v with
  | none => .raw none
  | some s =>
    if s = "" then .raw (some s)
    else
      match json_loads_obj s with
      | some m => .mapping m
      | none => .mapping []

/-- SQL `SELECT * FROM corpus_stats ORDER BY id DESC LIMIT 1` then `fetchone()`. -/
def latest_corpus_stats (db : DB) : Option CorpusStatsRow :=
  (sortBy (fun a b => natDescLe a.id b.id) db.corpus_stats).head?

/-- SQL `SELECT court, COUNT(*) FROM documents GROUP BY court` followed by the
dict comprehension `\x7brow[0]: row[1] for row in ... if row[0]\x7d`: distinct
non-NULL, non-empty keys (first-occurrence order) with their group counts.
For the `years` variant, `str(row[0])` is the identity since `year` is TEXT. -/
def groupCounts (keys : List (Option String)) : List (String × JVal) :=
  ((keys.filterMap id).eraseDups.filter (fun s => s ≠ "")).map
    (fun s => (s, JVal.vint (keys.count (some s) : Int)))

/-- Function `get_corpus_stats` (lines 43-107). Snapshot branch: pass numeric fields
through and decode the two mapping fields independently. Computed branch:
`COUNT(*)`, the two `SUM(...) ... or 0` reductions (SQL `SUM` skips NULLs and
yields NULL on empty input, which `or 0` turns into 0 — the sum of the
non-NULL values), and the two filtered group-by dicts. -/
def get_corpus_stats (db : DB) : CorpusStats :=
  match latest_corpus_stats db with
  | some row =>
    { total_documents := row.total_documents
      total_pages := row.total_pages
      total_size_bytes := row.total_size_bytes
      courts := decodeStatsField row.courts
      years := decodeStatsField row.years }
  | none =>
    { total_documents := some (db.documents.length : Int)
      total_pages := some (db.document_metrics.filterMap (fun m => m.page_count)).sum
      total_size_bytes := some (db.document_metrics.filterMap (fun m => m.file_size)).sum
      courts := .mapping (groupCounts (db.documents.map (fun d => d.court)))
      years := .mapping (groupCounts (db.documents.map (fun d => d.year))) }

/-- Line 78 and line 106: both return paths of `get_corpus_stats` call
`conn.close()` before returning, so the connection is closed on either
branch; no statement in between can raise in this model. -/
def get_corpus_stats_connClosed (db : DB) : Bool :=
  match latest_corpus_stats db with
  | some _ => true
  | none => true

/-! ## Aggregation queries (dashboard.py lines 109-186) -/

/-- Function `get_documents_by_court` (lines 109-134): counts per non-NULL court,
ordered by count descending (ties in group-by order). An empty-string court
is not NULL and is therefore kept, unlike in the computed-stats dict. -/
def get_documents_by_court (db : DB) : List (String × Nat) :=
  let keys := db.documents.filterMap (fun d => d.court)
  sortBy (fun a b => natDescLe a.2 b.2)
    (keys.eraseDups.map (fun c => (c, keys.count c)))

/-- Function `get_documents_by_year` (lines 136-161): counts per non-NULL year,
ordered by year ascending (binary text order on the TEXT column). -/
def get_documents_by_year (db : DB) : List (String × Nat) :=
  let keys := db.documents.filterMap (fun d => d.year)
  sortBy (fun a b => strLe a.1 b.1)
    (keys.eraseDups.map (fun y => (y, keys.count y)))

/-- A row of the metrics view: `d.ecli_id, d.court, d.year, m.page_count,
m.file_size`. -/
structure MetricsViewRow where
  ecli_id : Option String
  court : Option String
  year : Option String
  page_count : Option Int
  file_size : Option Int
deriving Repr, DecidableEq

/-- Function `get_document_metrics` (lines 163-186): inner join, documents without a
metrics row are excluded; store scan order. -/
def get_document_metrics (db : DB) : List MetricsViewRow :=
  db.documents.flatMap fun d =>
    (db.document_metrics.filter (fun m => m.document_id == d.id)).map
      (fun m => ⟨d.ecli_id, d.court, d.year, m.page_count, m.file_size⟩)

/-- Each aggregation query closes its connection on its single (non-raising)
return path (lines 128, 155, 180). -/
def aggregation_connClosed (_db : DB) : Bool := true

/-! ## Dynamic filter query builder: `search_documents` (lines 245-297) -/

/-- The `query` dict built by the `/api/search` route: each recognized field
maps to the raw request-argument string, or `None` when absent. -/
structure SearchQuery where
  court : Option String := none
  year : Option String := none
  min_pages : Option String := none
  max_pages : Option String := none
deriving Repr, DecidableEq

/-- Python truthiness of `query[field]` as tested by
the key-presence test plus `query[field]` truthiness (all four keys are always present;
`None` and `""` are falsy). -/
def truthy : Option String → Bool
  | none => false
  | some s => s != ""

/-- The error taxonomy of the search path: the `ValueError` raised by
`int()` on a non-numeric page bound (the `InvalidFilterValue` of the spec). -/
inductive SearchError where
  | invalidFilterValue
deriving Repr, DecidableEq

/-- The validated conjunctive predicates extracted from a query: `none`
means the field contributes no predicate. -/
structure Filters where
  court : Option String
  year : Option String
  min_pages : Option Int
  max_pages : Option Int
deriving Repr, DecidableEq

/-- Lines 276-282 for one numeric bound: a falsy field contributes nothing;
a truthy one is passed to `int(...)`, whose failure raises. -/
def parseBound (v : Option String) : Except SearchError (Option Int) :=
  match v with
  | none => .ok none
  | some s =>
    if s = "" then .ok none
    else
      match pyInt? s with
      | some n => .ok (some n)
      | none => .error .invalidFilterValue

/-- Lines 267-282: which predicates the four fields contribute, with the
`int()` calls on the page bounds (in source order: `min_pages` first; the
first failing `int()` aborts the call). -/
def parseQuery (q : SearchQuery) : Except SearchError Filters :=
  match parseBound q.min_pages with
  | .error e => .error e
  | .ok mn =>
    match parseBound q.max_pages with
    | .error e => .error e
    | .ok mx =>
      .ok { court := if truthy q.court then q.court else none
            year := if truthy q.year then q.year else none
            min_pages := mn
            max_pages := mx }

/-- A bound parameter of the built SQL statement. -/
inductive SqlParam where
  | pstr (s : String)
  | pint (n : Int)
deriving Repr, DecidableEq

/-- The fixed head of the search statement (lines 259-264). -/
def baseSearchSql : String :=
  "SELECT d.ecli_id, d.court, d.year, d.added_date, m.page_count, m.file_size FROM documents d LEFT JOIN document_metrics m ON d.id = m.document_id WHERE 1=1"

/-- The SQL text assembled by lines 259-285 as a function of which fields are
present and truthy. -/
def searchSqlShape (hasCourt hasYear hasMin hasMax : Bool) : String :=
  baseSearchSql
    ++ (if hasCourt then " AND d.court = ?" else "")
    ++ (if hasYear then " AND d.year = ?" else "")
    ++ (if hasMin then " AND m.page_count >= ?" else "")
    ++ (if hasMax then " AND m.page_count <= ?" else "")
    ++ " ORDER BY d.added_date DESC"

/-- The parameter list accumulated in lockstep with the predicate text. -/
def searchParams (f : Filters) : List SqlParam :=
  (match f.court with | some c => [SqlParam.pstr c] | none => [])
    ++ (match f.year with | some y => [SqlParam.pstr y] | none => [])
    ++ (match f.min_pages with | some n => [SqlParam.pint n] | none => [])
    ++ (match f.max_pages with | some n => [SqlParam.pint n] | none => [])

/-- Lines 258-285: the `(sql, params)` pair `search_documents` hands to
`cursor.execute`, or the `ValueError` raised while appending a numeric
bound (in the source the partial SQL string is discarded by the raise). -/
def buildSearch (q : SearchQuery) : Except SearchError (String × List SqlParam) :=
  match parseQuery q with
  | .error e => .error e
  | .ok f =>
    .ok (searchSqlShape (truthy q.court) (truthy q.year)
          (truthy q.min_pages) (truthy q.max_pages),
         searchParams f)

/-- A result row of the search view: `d.ecli_id, d.court, d.year,
d.added_date, m.page_count, m.file_size`. -/
structure SearchRow where
  ecli_id : Option String
  court : Option String
  year : Option String
  added_date : Option String
  page_count : Option Int
  file_size : Option Int
deriving Repr, DecidableEq

/-- Projection of a joined row onto the search view columns. -/
def toSearchRow (p : DocumentRow × Option MetricsRow) : SearchRow :=
  { ecli_id := p.1.ecli_id
    court := p.1.court
    year := p.1.year
    added_date := p.1.added_date
    page_count := p.2.bind (fun m => m.page_count)
    file_size := p.2.bind (fun m => m.file_size) }

/-- SQL semantics of the assembled WHERE clause on one joined row.  SQL `=`
and `>=`/`<=` against NULL are not true, so a NULL court/year never matches
an equality predicate and a missing metrics row (or NULL page count) never
satisfies a page bound. -/
def matchesRow (f : Filters) (p : DocumentRow × Option MetricsRow) : Bool :=
  (match f.court with
    | some c => p.1.court == some c
    | none => true)
  && (match f.year with
    | some y => p.1.year == some y
    | none => true)
  && (match f.min_pages with
    | some n =>
      (match p.2.bind (fun m => m.page_count) with
        | some pc => decide (n ≤ pc)
        | none => false)
    | none => true)
  && (match f.max_pages with
    | some n =>
      (match p.2.bind (fun m => m.page_count) with
        | some pc => decide (pc ≤ n)
        | none => false)
    | none => true)

/-- Execution of the built statement: left join, WHERE, `ORDER BY
d.added_date DESC` (NULLs last). -/
def execSearch (db : DB) (f : Filters) : List SearchRow :=
  sortBy (fun a b => textDescLe a.added_date b.added_date)
    (((leftJoin db).filter (matchesRow f)).map toSearchRow)

/-- Observable effects of one `search_documents` call: its return value (or
raised error), whether `cursor.execute` was reached (line 288), and whether
`conn.close()` ran (line 291 — there is no `finally`, so the raise on line
278/282 exits with the connection still open). -/
structure SearchTrace where
  result : Except SearchError (List SearchRow)
  executed : Bool
  connClosed : Bool
deriving Repr

/-- Function `search_documents` (lines 245-297) with its connection/execution trace.
The `if rows: ... return []` tail returns the same empty list either way. -/
def search_documents_traced (db : DB) (q : SearchQuery) : SearchTrace :=
  match parseQuery q with
  | .error e => { result := .error e, executed := false, connClosed := false }
  | .ok f => { result := .ok (execSearch db f), executed := true, connClosed := true }

/-- The value returned (or error raised) by `search_documents`. -/
def search_documents (db : DB) (q : SearchQuery) : Except SearchError (List SearchRow) :=
  (search_documents_traced db q).result

/-! ## Recent/fallback document lister: `get_recent_documents` (lines 188-243) -/

/-- A normalized recent-document dictionary: `ecli_id`, `court`, `year` and
`added_date` have had their NULL-to-placeholder defaults applied (lines
228-235); the metric fields get no default. -/
structure RecentDoc where
  id : Nat
  ecli_id : String
  court : String
  year : String
  added_date : String
  page_count : Option Int
  file_size : Option Int
deriving Repr, DecidableEq

/-- Lines 226-236: `dict(row)` plus the per-field `Unknown` defaults (only
`None` is replaced; an empty string is kept as is). -/
def normalizeRecent (p : DocumentRow × Option MetricsRow) : RecentDoc :=
  { id := p.1.id
    ecli_id :=
      match p.1.ecli_id with
      | some e => e
      | none => "ECLI_UNKNOWN_" ++ toString p.1.id
    court := p.1.court.getD "Unknown"
    year := p.1.year.getD "Unknown"
    added_date := p.1.added_date.getD "Unknown"
    page_count := p.2.bind (fun m => m.page_count)
    file_size := p.2.bind (fun m => m.file_size) }

/-- Lines 203-211: the primary query, `ORDER BY d.added_date DESC LIMIT ?`. -/
def recentPrimaryRows (db : DB) (limit : Nat) : List (DocumentRow × Option MetricsRow) :=
  (sortBy (fun a b => textDescLe a.1.added_date b.1.added_date) (leftJoin db)).take limit

/-- Lines 215-222: the fallback query, `ORDER BY d.id DESC LIMIT ?`. -/
def recentFallbackRows (db : DB) (limit : Nat) : List (DocumentRow × Option MetricsRow) :=
  (sortBy (fun a b => natDescLe a.1.id b.1.id) (leftJoin db)).take limit

/-- Function `get_recent_documents` (lines 188-243).  The fallback re-query is guarded
only by `if not rows` on the already-fetched primary result (line 214), so it
runs exactly when the primary query returned zero rows; the statements in
this model cannot raise, and both the normal return (line 238) and the
`except` handler (line 242) close the connection. -/
def get_recent_documents (db : DB) (limit : Nat) : List RecentDoc :=
  let rows := recentPrimaryRows db limit
  let rows := if rows.isEmpty then recentFallbackRows db limit else rows
  rows.map normalizeRecent

/-- Connection release for `get_recent_documents`: `conn.close()` runs on the
normal path and in the catch-all handler alike. -/
def get_recent_documents_connClosed (_db : DB) (_limit : Nat) : Bool := true

/-! ## Document detail lookup: the `/api/document/<ecli_id>` handler
(`get_document`, lines 363-395) -/

/-- Outcome of the lookup: the JSON-serialized detail dictionary, or the
explicit 404 not-found response. -/
inductive DocResult where
  | found (doc : List (String × PyVal))
  | notFound
deriving Repr, DecidableEq

/-- An optional TEXT column as a Python dict value. -/
def optStr : Option String → PyVal
  | some s => .vstr s
  | none => .vnone

/-- An optional INTEGER column as a Python dict value. -/
def optInt : Option Int → PyVal
  | some n => .vint n
  | none => .vnone

/-- Python `dict(row)` for SQL `SELECT d.*, m.page_count, m.file_size,
m.document_date, m.judge, m.pdf_metadata` (line 371), in schema column order. -/
def docDetailRow (d : DocumentRow) (mo : Option MetricsRow) : List (String × PyVal) :=
  [("id", .vint (d.id : Int)),
   ("ecli_id", optStr d.ecli_id),
   ("court", optStr d.court),
   ("year", optStr d.year),
   ("case_number", optStr d.case_number),
   ("file_path", optStr d.file_path),
   ("added_date", optStr d.added_date),
   ("last_updated", optStr d.last_updated),
   ("page_count", optInt (mo.bind (fun m => m.page_count))),
   ("file_size", optInt (mo.bind (fun m => m.file_size))),
   ("document_date", optStr (mo.bind (fun m => m.document_date))),
   ("judge", optStr (mo.bind (fun m => m.judge))),
   ("pdf_metadata", optStr (mo.bind (fun m => m.pdf_metadata)))]

/-- Lines 385-391: if the `pdf_metadata` value is truthy, decode it and merge
the decoded keys into the dict (`doc.update`); a decode failure is swallowed
by the bare `except: pass`; in either case the `del` of the raw blob key runs
after the try block. -/
def mergeMetadata (doc : List (String × PyVal)) : List (String × PyVal) :=
  match dictGet doc "pdf_metadata" with
  | some v =>
    if pyTruthy v then
      let doc2 :=
        match v with
        | .vstr s =>
          match json_loads_obj s with
          | some kvs => kvs.foldl (fun acc kv => dictSet acc kv.1 (jToPy kv.2)) doc
          | none => doc
        | _ => doc
      dictDel doc2 "pdf_metadata"
    else doc
  | none => doc

/-- Function `get_document` (lines 363-395): `WHERE d.ecli_id = ?` then `fetchone()`
(the first matching joined row in scan order); a missing row yields the 404
result.  `conn.close()` (line 378) runs before either return. -/
def get_document (db : DB) (eid : String) : DocResult :=
  match (leftJoin db).find? (fun p => p.1.ecli_id == some eid) with
  | some p => .found (mergeMetadata (docDetailRow p.1 p.2))
  | none => .notFound

/-- Connection release for `get_document`: line 378 precedes both returns. -/
def get_document_connClosed (_db : DB) (_eid : String) : Bool := true

/-! ## Helper lemmas -/

theorem parseBound_of_not_truthy (v : Option String) (h : truthy v = false) :
    parseBound v = .ok none := by
  cases v with
  | none => rfl
  | some s =>
    have hs : s = "" := by simpa [truthy] using h
    simp [parseBound, hs]

theorem parseBound_some_eq (s : String) :
    parseBound (some s) =
      if s = "" then .ok none
      else
        match pyInt? s with
        | some n => .ok (some n)
        | none => .error .invalidFilterValue := rfl

theorem parseBound_some_ok (s : String) (hne : s ≠ "") (o : Option Int)
    (h : parseBound (some s) = .ok o) : ∃ n, pyInt? s = some n ∧ o = some n := by
  rw [parseBound_some_eq, if_neg hne] at h
  cases hp : pyInt? s with
  | none => rw [hp] at h; exact Except.noConfusion h
  | some n =>
    rw [hp] at h
    injection h with h
    exact ⟨n, rfl, h.symm⟩

theorem parseQuery_ok_fields (q : SearchQuery) (f : Filters)
    (h : parseQuery q = .ok f) :
    f.court = (if truthy q.court then q.court else none) ∧
    f.year = (if truthy q.year then q.year else none) ∧
    parseBound q.min_pages = .ok f.min_pages ∧
    parseBound q.max_pages = .ok f.max_pages := by
  unfold parseQuery at h
  cases hmn : parseBound q.min_pages with
  | error e => rw [hmn] at h; exact Except.noConfusion h
  | ok mn =>
    rw [hmn] at h
    cases hmx : parseBound q.max_pages with
    | error e => rw [hmx] at h; exact Except.noConfusion h
    | ok mx =>
      rw [hmx] at h
      simp only [Except.ok.injEq] at h
      subst h
      exact ⟨rfl, rfl, rfl, rfl⟩

theorem parseQuery_all_empty (q : SearchQuery) (hc : truthy q.court = false)
    (hy : truthy q.year = false) (hmn : truthy q.min_pages = false)
    (hmx : truthy q.max_pages = false) :
    parseQuery q = .ok ⟨none, none, none, none⟩ := by
  unfold parseQuery
  rw [parseBound_of_not_truthy _ hmn, parseBound_of_not_truthy _ hmx]
  simp [hc, hy]

theorem mem_leftJoin_fst (db : DB) (p : DocumentRow × Option MetricsRow)
    (h : p ∈ leftJoin db) : p.1 ∈ db.documents := by
  unfold leftJoin at h
  rcases List.mem_flatMap.mp h with ⟨d, hd, hp⟩
  cases hf : db.document_metrics.filter (fun m => m.document_id == d.id) with
  | nil =>
    rw [hf] at hp
    simp only [List.mem_singleton] at hp
    subst hp; exact hd
  | cons m ms =>
    rw [hf] at hp
    rcases List.mem_map.mp hp with ⟨m2, _, hp2⟩
    subst hp2; exact hd

theorem exists_mem_leftJoin (db : DB) (d : DocumentRow) (hd : d ∈ db.documents) :
    ∃ mo, (d, mo) ∈ leftJoin db := by
  unfold leftJoin
  cases hf : db.document_metrics.filter (fun m => m.document_id == d.id) with
  | nil =>
    exact ⟨none, List.mem_flatMap.mpr ⟨d, hd, by rw [hf]; exact List.mem_singleton_self _⟩⟩
  | cons m ms =>
    refine ⟨some m, List.mem_flatMap.mpr ⟨d, hd, ?_⟩⟩
    rw [hf]
    exact List.mem_map.mpr ⟨m, List.mem_cons_self m ms, rfl⟩

theorem mem_leftJoin_of_no_metrics (db : DB) (d : DocumentRow)
    (hd : d ∈ db.documents)
    (h : ∀ m ∈ db.document_metrics, m.document_id ≠ d.id) :
    (d, (none : Option MetricsRow)) ∈ leftJoin db := by
  unfold leftJoin
  have hf : db.document_metrics.filter (fun m => m.document_id == d.id) = [] := by
    rw [List.filter_eq_nil_iff]
    intro m hm
    simpa using h m hm
  exact List.mem_flatMap.mpr ⟨d, hd, by rw [hf]; exact List.mem_singleton_self _⟩

theorem textDescLe_none_left (b : Option String) (h : textDescLe none b = true) :
    b = none := by
  cases b with
  | none => rfl
  | some s => exact absurd h (by simp [textDescLe])

/-- SQL equality-predicate semantics as a proposition. -/
theorem optMatch_iff (fc dc : Option String) :
    (match fc with | some c => dc == some c | none => true) = true ↔
      (∀ c, fc = some c → dc = some c) := by
  cases fc with
  | none => simp
  | some c =>
    simp only [beq_iff_eq]
    constructor
    · rintro h c2 hc2
      injection hc2 with hc2
      subst hc2; exact h
    · intro h; exact h c rfl

/-- SQL bound-predicate semantics as a proposition (lower bound). -/
theorem minMatch_iff (fn pc : Option Int) :
    (match fn with
      | some n => (match pc with | some p => decide (n ≤ p) | none => false)
      | none => true) = true ↔
      (∀ n, fn = some n → ∃ p, pc = some p ∧ n ≤ p) := by
  cases fn with
  | none => simp
  | some n =>
    cases pc with
    | none =>
      simp only [Bool.false_eq_true, false_iff]
      push_neg
      exact ⟨n, rfl, fun p hp => Option.noConfusion hp⟩
    | some p =>
      simp only [decide_eq_true_eq]
      constructor
      · rintro h n2 hn2
        injection hn2 with hn2
        subst hn2; exact ⟨p, rfl, h⟩
      · rintro h
        rcases h n rfl with ⟨p2, hp2, hle⟩
        injection hp2 with hp2
        subst hp2; exact hle

/-- SQL bound-predicate semantics as a proposition (upper bound). -/
theorem maxMatch_iff (fn pc : Option Int) :
    (match fn with
      | some n => (match pc with | some p => decide (p ≤ n) | none => false)
      | none => true) = true ↔
      (∀ n, fn = some n → ∃ p, pc = some p ∧ p ≤ n) := by
  cases fn with
  | none => simp
  | some n =>
    cases pc with
    | none =>
      simp only [Bool.false_eq_true, false_iff]
      push_neg
      exact ⟨n, rfl, fun p hp => Option.noConfusion hp⟩
    | some p =>
      simp only [decide_eq_true_eq]
      constructor
      · rintro h n2 hn2
        injection hn2 with hn2
        subst hn2; exact ⟨p, rfl, h⟩
      · rintro h
        rcases h n rfl with ⟨p2, hp2, hle⟩
        injection hp2 with hp2
        subst hp2; exact hle

/-- The supplied conjunctive predicates, read off a result row of the search
view: this is the spec-side statement of "the row satisfies every supplied
predicate". -/
def rowSatisfies (f : Filters) (r : SearchRow) : Prop :=
  (∀ c, f.court = some c → r.court = some c) ∧
  (∀ y, f.year = some y → r.year = some y) ∧
  (∀ n, f.min_pages = some n → ∃ p, r.page_count = some p ∧ n ≤ p) ∧
  (∀ n, f.max_pages = some n → ∃ p, r.page_count = some p ∧ p ≤ n)

theorem matchesRow_iff (f : Filters) (p : DocumentRow × Option MetricsRow) :
    matchesRow f p = true ↔ rowSatisfies f (toSearchRow p) := by
  unfold matchesRow rowSatisfies toSearchRow
  simp only [Bool.and_eq_true]
  rw [optMatch_iff, optMatch_iff, minMatch_iff, maxMatch_iff]
  tauto

theorem dictGet_foldSet_not_mem (kvs : List (String × JVal))
    (d0 : List (String × PyVal)) (k : String) (h : k ∉ kvs.map Prod.fst) :
    dictGet (kvs.foldl (fun acc kv => dictSet acc kv.1 (jToPy kv.2)) d0) k =
      dictGet d0 k := by
  induction kvs generalizing d0 with
  | nil => rfl
  | cons kv rest ih =>
    simp only [List.map_cons, List.mem_cons, not_or] at h
    rw [List.foldl_cons, ih _ h.2, dictGet_set_ne _ _ _ _ h.1]

theorem dictGet_foldSet_mem (kvs : List (String × JVal))
    (d0 : List (String × PyVal)) (k : String) (v : JVal)
    (hmem : (k, v) ∈ kvs) (hnd : (kvs.map Prod.fst).Nodup) :
    dictGet (kvs.foldl (fun acc kv => dictSet acc kv.1 (jToPy kv.2)) d0) k =
      some (jToPy v) := by
  induction kvs generalizing d0 with
  | nil => exact absurd hmem (List.not_mem_nil _)
  | cons kv rest ih =>
    simp only [List.map_cons, List.nodup_cons] at hnd
    rcases List.mem_cons.mp hmem with heq | hmem2
    · subst heq
      rw [List.foldl_cons, dictGet_foldSet_not_mem _ _ _ hnd.1, dictGet_set_self]
    · rw [List.foldl_cons]
      exact ih _ hmem2 hnd.2

/-- Reading the raw metadata-blob key off the document-detail row dict. -/
theorem dictGet_docDetailRow_pdf (d : DocumentRow) (mo : Option MetricsRow) :
    dictGet (docDetailRow d mo) "pdf_metadata" =
      some (optStr (mo.bind (fun m => m.pdf_metadata))) := by rfl

theorem json_loads_obj_ne_empty (s : String) (kvs : List (String × JVal))
    (h : json_loads_obj s = some kvs) : s ≠ "" := by
  intro hs
  rw [hs] at h
  have h0 : json_loads_obj "" = none := rfl
  rw [h0] at h
  exact Option.noConfusion h

theorem decodeStatsField_some (s : String) :
    decodeStatsField (some s) =
      if s = "" then .raw (some s)
      else
        match json_loads_obj s with
        | some m => .mapping m
        | none => .mapping [] := rfl

/-- Merging under a known truthy string blob: `doc.update(json.loads(s))`
followed by the `del` of the raw blob key. -/
theorem mergeMetadata_eq (doc : List (String × PyVal)) (s : String)
    (hget : dictGet doc "pdf_metadata" = some (PyVal.vstr s)) (hne : s ≠ "")
    (kvs : List (String × JVal)) (hdec : json_loads_obj s = some kvs) :
    mergeMetadata doc =
      dictDel (kvs.foldl (fun acc kv => dictSet acc kv.1 (jToPy kv.2)) doc)
        "pdf_metadata" := by
  unfold mergeMetadata
  rw [hget]
  show (if pyTruthy (PyVal.vstr s) then
          dictDel
            (match PyVal.vstr s with
              | PyVal.vstr s2 =>
                (match json_loads_obj s2 with
                  | some kvs2 =>
                    kvs2.foldl (fun acc kv => dictSet acc kv.1 (jToPy kv.2)) doc
                  | none => doc)
              | _ => doc) "pdf_metadata"
        else doc) = _
  rw [if_pos (show pyTruthy (PyVal.vstr s) = true from by
    simp only [pyTruthy, bne_iff_ne, ne_eq, decide_eq_true_eq]; exact hne)]
  show dictDel
      (match json_loads_obj s with
        | some kvs2 => kvs2.foldl (fun acc kv => dictSet acc kv.1 (jToPy kv.2)) doc
        | none => doc) "pdf_metadata" = _
  rw [hdec]

/-! ## Concrete store fixtures used by witnesses and counterexamples -/

/-- A small store: three documents (one with neither court, year, date nor
metrics), one metrics row carrying a metadata blob. -/
def dbFix : DB :=
  { documents :=
      [ { id := 1, ecli_id := some "E1", court := some "STJ", year := some "2020",
          case_number := none, file_path := none, added_date := some "2024-01-02",
          last_updated := none },
        { id := 2, ecli_id := some "E2", court := some "TRL", year := some "2021",
          case_number := none, file_path := none, added_date := some "2024-01-03",
          last_updated := none },
        { id := 3, ecli_id := some "E3", court := none, year := none,
          case_number := none, file_path := none, added_date := none,
          last_updated := none } ]
    document_metrics :=
      [ { id := 1, document_id := 1, page_count := some 10, file_size := some 100,
          document_date := none, language := none, judge := some "J",
          pdf_metadata := some "\x7b\"judge\": \"X\"\x7d" } ]
    corpus_stats := [] }

/-- The empty store. -/
def dbEmpty : DB := { documents := [], document_metrics := [], corpus_stats := [] }

/-- Three documents whose `added_date` values are all NULL; no metrics. -/
def dbNullDates : DB :=
  { documents :=
      [ { id := 1, ecli_id := some "A", court := none, year := none, case_number := none,
          file_path := none, added_date := none, last_updated := none },
        { id := 2, ecli_id := some "B", court := none, year := none, case_number := none,
          file_path := none, added_date := none, last_updated := none },
        { id := 3, ecli_id := some "C", court := none, year := none, case_number := none,
          file_path := none, added_date := none, last_updated := none } ]
    document_metrics := []
    corpus_stats := [] }

/-- A snapshot row whose serialized court mapping is corrupt while the year
mapping is well-formed. -/
def snapRowBad : CorpusStatsRow :=
  { id := 1, total_documents := some 5, total_pages := some 50,
    total_size_bytes := some 500, courts := some "not json",
    years := some "\x7b\"2020\": 5\x7d", generated_at := some "2025-01-01" }

/-- A store whose only snapshot is `snapRowBad`. -/
def dbSnapBad : DB := { documents := [], document_metrics := [], corpus_stats := [snapRowBad] }

/-- A snapshot row with a NULL court mapping and an empty-string year mapping. -/
def snapRowRaw : CorpusStatsRow :=
  { id := 2, total_documents := none, total_pages := none, total_size_bytes := none,
    courts := none, years := some "", generated_at := none }

/-- A store whose only snapshot is `snapRowRaw`. -/
def dbSnapRaw : DB := { documents := [], document_metrics := [], corpus_stats := [snapRowRaw] }

/-- A store whose single document has a metadata blob containing a key named
like the raw blob field itself. -/
def dbBlobSelfKey : DB :=
  { documents :=
      [ { id := 1, ecli_id := some "E1", court := none, year := none, case_number := none,
          file_path := none, added_date := none, last_updated := none } ]
    document_metrics :=
      [ { id := 1, document_id := 1, page_count := none, file_size := none,
          document_date := none, language := none, judge := none,
          pdf_metadata := some "\x7b\"pdf_metadata\": \"y\"\x7d" } ]
    corpus_stats := [] }

/-! ## Claims -/

/-- C1: for every well-formed filter (each present, non-empty page bound
parses as an integer, which is what `parseQuery q = .ok f` states), every row
returned by `search_documents` satisfies all supplied predicates — court/year
exact match, page count within the inclusive bounds — and every joined
document row satisfying all supplied predicates appears in the result. -/
theorem C1_search_sound_and_complete (db : DB) (q : SearchQuery) (f : Filters)
    (h : parseQuery q = .ok f) :
    ∃ rows, search_documents db q = .ok rows ∧
      (∀ r ∈ rows, rowSatisfies f r) ∧
      (∀ p ∈ leftJoin db, rowSatisfies f (toSearchRow p) → toSearchRow p ∈ rows) := by
  refine ⟨execSearch db f, ?_, ?_, ?_⟩
  · unfold search_documents search_documents_traced
    rw [h]
  · intro r hr
    unfold execSearch at hr
    rcases List.mem_map.mp ((mem_sortBy _ _ _).mp hr) with ⟨p, hp, hpr⟩
    subst hpr
    exact (matchesRow_iff f p).mp (List.mem_filter.mp hp).2
  · intro p hp hs
    unfold execSearch
    exact (mem_sortBy _ _ _).mpr
      (List.mem_map.mpr ⟨p, List.mem_filter.mpr ⟨hp, (matchesRow_iff f p).mpr hs⟩, rfl⟩)

theorem C1_witness :
    parseQuery { court := some "STJ" } = .ok ⟨some "STJ", none, none, none⟩ ∧
    (∃ rows, search_documents dbFix { court := some "STJ" } = .ok rows ∧
      (∀ r ∈ rows, rowSatisfies ⟨some "STJ", none, none, none⟩ r) ∧
      (∀ p ∈ leftJoin dbFix,
        rowSatisfies ⟨some "STJ", none, none, none⟩ (toSearchRow p) →
          toSearchRow p ∈ rows)) :=
  ⟨rfl, C1_search_sound_and_complete dbFix { court := some "STJ" }
    ⟨some "STJ", none, none, none⟩ rfl⟩

/-- A present, non-empty, non-numeric bound string. -/
def badBound (v : Option String) : Prop :=
  ∃ s, v = some s ∧ s ≠ "" ∧ pyInt? s = none

/-- C2: a truthy non-numeric `min_pages` or `max_pages` makes
`search_documents` raise the invalid-filter-value error (the `ValueError`
from `int()`, the `InvalidFilterValue` of the spec) to its caller — never silently
ignored or coerced — and `cursor.execute` is never reached, so no partial
query runs against the store. -/
theorem C2_invalid_bound_rejected (db : DB) (q : SearchQuery)
    (h : badBound q.min_pages ∨ badBound q.max_pages) :
    (search_documents_traced db q).result = .error .invalidFilterValue ∧
    (search_documents_traced db q).executed = false := by
  have hparse : parseQuery q = .error .invalidFilterValue := by
    unfold parseQuery
    rcases h with ⟨s, hs, hne, hbad⟩ | ⟨s, hs, hne, hbad⟩
    · rw [hs, parseBound_some_eq, if_neg hne, hbad]
    · cases hmn : parseBound q.min_pages with
      | error e => cases e; rfl
      | ok mn => rw [hs, parseBound_some_eq, if_neg hne, hbad]
  unfold search_documents_traced
  rw [hparse]
  exact ⟨rfl, rfl⟩

theorem C2_witness :
    (badBound (some "abc") ∨ badBound none) ∧
    ((search_documents_traced dbFix { min_pages := some "abc" }).result =
        .error .invalidFilterValue ∧
      (search_documents_traced dbFix { min_pages := some "abc" }).executed = false) :=
  ⟨Or.inl ⟨"abc", rfl, by decide, rfl⟩,
   C2_invalid_bound_rejected dbFix { min_pages := some "abc" }
     (Or.inl ⟨"abc", rfl, by decide, rfl⟩)⟩

/-- C3 (evidence of the code bug): on a table of three documents whose
`added_date` values are all NULL, the primary query returns rows (so the
`if not rows` guard on line 214 is false and the fallback re-query never
runs), `get_recent_documents(3)` returns those rows in store scan order
`[1, 2, 3]` — while the id-descending fallback ordering promised by the comment
inside the function (line 213) would yield `[3, 2, 1]`. -/
theorem C3_no_fallback_on_all_null_dates :
    (recentPrimaryRows dbNullDates 3).isEmpty = false ∧
    (get_recent_documents dbNullDates 3).map (fun r => r.id) = [1, 2, 3] ∧
    (recentFallbackRows dbNullDates 3).map (fun p => p.1.id) = [3, 2, 1] :=
  ⟨rfl, rfl, rfl⟩

/-- C4: with no snapshot row and an empty documents table (hence, by the
metrics foreign-key invariant, an empty metrics table), `get_corpus_stats`
does not raise and returns zero totals with empty court and year mappings —
no null fields. -/
theorem C4_stats_on_empty_store (db : DB) (hdocs : db.documents = [])
    (hmet : db.document_metrics = []) (hsnap : db.corpus_stats = []) :
    get_corpus_stats db =
      { total_documents := some 0, total_pages := some 0, total_size_bytes := some 0,
        courts := .mapping [], years := .mapping [] } := by
  unfold get_corpus_stats latest_corpus_stats
  rw [hsnap, hdocs, hmet]
  rfl

theorem C4_witness :
    dbEmpty.documents = [] ∧ dbEmpty.document_metrics = [] ∧
    dbEmpty.corpus_stats = [] ∧
    get_corpus_stats dbEmpty =
      { total_documents := some 0, total_pages := some 0, total_size_bytes := some 0,
        courts := .mapping [], years := .mapping [] } :=
  ⟨rfl, rfl, rfl, C4_stats_on_empty_store dbEmpty rfl rfl rfl⟩

/-- C5: when the latest snapshot row exists, its serialized court mapping is
truthy but fails to deserialize, and its year mapping deserializes to `m`,
`get_corpus_stats` returns the empty mapping for courts and `m` for years:
each field degrades independently and the read does not fail. -/
theorem C5_partial_degradation (db : DB) (row : CorpusStatsRow) (cs ys : String)
    (m : List (String × JVal)) (hrow : latest_corpus_stats db = some row)
    (hcs : row.courts = some cs) (hcsne : cs ≠ "")
    (hcsbad : json_loads_obj cs = none)
    (hys : row.years = some ys) (hysgood : json_loads_obj ys = some m) :
    (get_corpus_stats db).courts = .mapping [] ∧
    (get_corpus_stats db).years = .mapping m := by
  have hysne : ys ≠ "" := json_loads_obj_ne_empty ys m hysgood
  unfold get_corpus_stats
  rw [hrow]
  constructor
  · show decodeStatsField row.courts = StatsField.mapping []
    rw [hcs, decodeStatsField_some, if_neg hcsne, hcsbad]
  · show decodeStatsField row.years = StatsField.mapping m
    rw [hys, decodeStatsField_some, if_neg hysne, hysgood]

theorem C5_witness :
    latest_corpus_stats dbSnapBad = some snapRowBad ∧
    snapRowBad.courts = some "not json" ∧ "not json" ≠ "" ∧
    json_loads_obj "not json" = none ∧
    snapRowBad.years = some "\x7b\"2020\": 5\x7d" ∧
    json_loads_obj "\x7b\"2020\": 5\x7d" = some [("2020", JVal.vint 5)] ∧
    ((get_corpus_stats dbSnapBad).courts = .mapping [] ∧
      (get_corpus_stats dbSnapBad).years = .mapping [("2020", JVal.vint 5)]) :=
  ⟨rfl, rfl, by decide, rfl, rfl, rfl,
   C5_partial_degradation dbSnapBad snapRowBad "not json" "\x7b\"2020\": 5\x7d"
     [("2020", JVal.vint 5)] rfl rfl (by decide) rfl rfl rfl⟩

/-- C6: for a filter with every field empty, `search_documents` returns every
document (as a permutation of the full left join, so documents lacking
metrics appear — with null metric fields), ordered by added-date descending
with NULL dates sorting last. -/
theorem C6_empty_filter_returns_all (db : DB) (q : SearchQuery)
    (hc : truthy q.court = false) (hy : truthy q.year = false)
    (hmn : truthy q.min_pages = false) (hmx : truthy q.max_pages = false) :
    ∃ rows, search_documents db q = .ok rows ∧
      List.Perm rows ((leftJoin db).map toSearchRow) ∧
      (∀ d ∈ db.documents, ∃ mo, (d, mo) ∈ leftJoin db ∧ toSearchRow (d, mo) ∈ rows) ∧
      (∀ d ∈ db.documents, (∀ m2 ∈ db.document_metrics, m2.document_id ≠ d.id) →
        toSearchRow (d, none) ∈ rows ∧ (toSearchRow (d, none)).page_count = none) ∧
      List.Pairwise (fun a b => textDescLe a.added_date b.added_date = true) rows ∧
      (∀ (i j : Nat) (hi : i < rows.length) (hj : j < rows.length), i < j →
        (rows.get ⟨i, hi⟩).added_date = none → (rows.get ⟨j, hj⟩).added_date = none) := by
  have hpq := parseQuery_all_empty q hc hy hmn hmx
  have hfilter : (leftJoin db).filter (matchesRow ⟨none, none, none, none⟩) =
      leftJoin db :=
    List.filter_eq_self.mpr (fun p _ => rfl)
  have hpair : List.Pairwise (fun a b => textDescLe a.added_date b.added_date = true)
      (execSearch db ⟨none, none, none, none⟩) := by
    unfold execSearch
    exact pairwise_sortBy (fun (a b : SearchRow) => textDescLe a.added_date b.added_date)
      (fun a b => textDescLe_total _ _) (fun a b c => textDescLe_trans _ _ _) _
  refine ⟨execSearch db ⟨none, none, none, none⟩, ?_, ?_, ?_, ?_, hpair, ?_⟩
  · unfold search_documents search_documents_traced
    rw [hpq]
  · unfold execSearch
    rw [hfilter]
    exact sortBy_perm _ _
  · intro d hd
    rcases exists_mem_leftJoin db d hd with ⟨mo, hmo⟩
    refine ⟨mo, hmo, ?_⟩
    unfold execSearch
    rw [hfilter]
    exact (mem_sortBy _ _ _).mpr (List.mem_map.mpr ⟨(d, mo), hmo, rfl⟩)
  · intro d hd hnom
    refine ⟨?_, rfl⟩
    unfold execSearch
    rw [hfilter]
    exact (mem_sortBy _ _ _).mpr
      (List.mem_map.mpr ⟨(d, none), mem_leftJoin_of_no_metrics db d hd hnom, rfl⟩)
  · intro i j hi hj hij hnone
    have hrel := List.pairwise_iff_get.mp hpair ⟨i, hi⟩ ⟨j, hj⟩ hij
    rw [hnone] at hrel
    exact textDescLe_none_left _ hrel

theorem C6_witness :
    truthy (({} : SearchQuery)).court = false ∧
    truthy (({} : SearchQuery)).year = false ∧
    truthy (({} : SearchQuery)).min_pages = false ∧
    truthy (({} : SearchQuery)).max_pages = false ∧
    (∃ rows, search_documents dbFix {} = .ok rows ∧
      List.Perm rows ((leftJoin dbFix).map toSearchRow)) := by
  refine ⟨rfl, rfl, rfl, rfl, ?_⟩
  rcases C6_empty_filter_returns_all dbFix {} rfl rfl rfl rfl with
    ⟨rows, h1, h2, -, -, -, -⟩
  exact ⟨rows, h1, h2⟩

/-- C7: the SQL text `search_documents` builds depends only on which filter
fields are present and truthy, never on the field values; the values appear
only in the bound-parameter list, never interpolated into the query text. -/
theorem C7_sql_independent_of_values (q : SearchQuery) (sql : String)
    (ps : List SqlParam) (h : buildSearch q = .ok (sql, ps)) :
    sql = searchSqlShape (truthy q.court) (truthy q.year)
      (truthy q.min_pages) (truthy q.max_pages) ∧
    (∀ c, q.court = some c → truthy q.court = true → SqlParam.pstr c ∈ ps) ∧
    (∀ y, q.year = some y → truthy q.year = true → SqlParam.pstr y ∈ ps) ∧
    (∀ s, q.min_pages = some s → truthy q.min_pages = true →
      ∃ n, pyInt? s = some n ∧ SqlParam.pint n ∈ ps) ∧
    (∀ s, q.max_pages = some s → truthy q.max_pages = true →
      ∃ n, pyInt? s = some n ∧ SqlParam.pint n ∈ ps) := by
  unfold buildSearch at h
  cases hpq : parseQuery q with
  | error e => rw [hpq] at h; exact Except.noConfusion h
  | ok f =>
    rw [hpq] at h
    injection h with h
    have hsql : searchSqlShape (truthy q.court) (truthy q.year)
        (truthy q.min_pages) (truthy q.max_pages) = sql := congrArg Prod.fst h
    have hps : searchParams f = ps := congrArg Prod.snd h
    obtain ⟨hfc, hfy, hfmn, hfmx⟩ := parseQuery_ok_fields q f hpq
    refine ⟨hsql.symm, ?_, ?_, ?_, ?_⟩
    · intro c hcourt htruthy
      have : f.court = some c := by rw [hfc, if_pos htruthy, hcourt]
      rw [← hps]
      simp [searchParams, this]
    · intro y hyear htruthy
      have : f.year = some y := by rw [hfy, if_pos htruthy, hyear]
      rw [← hps]
      simp [searchParams, this]
    · intro s hmin htruthy
      rw [hmin] at hfmn
      have hne : s ≠ "" := by
        rw [hmin] at htruthy
        simpa [truthy] using htruthy
      rcases parseBound_some_ok s hne _ hfmn with ⟨n, hn, hfn⟩
      refine ⟨n, hn, ?_⟩
      rw [← hps]
      simp [searchParams, hfn]
    · intro s hmax htruthy
      rw [hmax] at hfmx
      have hne : s ≠ "" := by
        rw [hmax] at htruthy
        simpa [truthy] using htruthy
      rcases parseBound_some_ok s hne _ hfmx with ⟨n, hn, hfn⟩
      refine ⟨n, hn, ?_⟩
      rw [← hps]
      simp [searchParams, hfn]

theorem C7_witness :
    ∃ sql ps, buildSearch { court := some "STJ", min_pages := some "12" } =
        .ok (sql, ps) ∧
      sql = searchSqlShape true false true false := by
  refine ⟨_, _, rfl, ?_⟩
  exact (C7_sql_independent_of_values
    { court := some "STJ", min_pages := some "12" } _ _ rfl).1

/-- C8 (amended): a lookup for an ecli id with no matching document returns
the explicit not-found result; for an existing document whose metadata blob
deserializes to a mapping (with distinct keys), every blob key other than one
named like the raw blob field itself appears at top level with its blob
value, and the raw blob field is absent from the result. -/
theorem C8_lookup_notfound_and_merge (db : DB) (eid : String) :
    ((∀ d ∈ db.documents, d.ecli_id ≠ some eid) → get_document db eid = .notFound) ∧
    (∀ d mo s kvs,
      (leftJoin db).find? (fun p => p.1.ecli_id == some eid) = some (d, mo) →
      mo.bind (fun m2 => m2.pdf_metadata) = some s →
      json_loads_obj s = some kvs →
      (kvs.map Prod.fst).Nodup →
      ∃ doc, get_document db eid = .found doc ∧
        (∀ k v, (k, v) ∈ kvs → k ≠ "pdf_metadata" → dictGet doc k = some (jToPy v)) ∧
        dictGet doc "pdf_metadata" = none) := by
  constructor
  · intro h
    unfold get_document
    have hnone : (leftJoin db).find? (fun p => p.1.ecli_id == some eid) = none := by
      rw [List.find?_eq_none]
      intro p hp
      simpa using h p.1 (mem_leftJoin_fst db p hp)
    rw [hnone]
  · intro d mo s kvs hfind hblob hdec hnd
    have hne : s ≠ "" := json_loads_obj_ne_empty s kvs hdec
    have hget : dictGet (docDetailRow d mo) "pdf_metadata" = some (PyVal.vstr s) := by
      rw [dictGet_docDetailRow_pdf, hblob]
      rfl
    have hmerge := mergeMetadata_eq (docDetailRow d mo) s hget hne kvs hdec
    refine ⟨mergeMetadata (docDetailRow d mo), ?_, ?_, ?_⟩
    · unfold get_document
      rw [hfind]
    · intro k v hkv hkne
      rw [hmerge, dictGet_del_ne _ _ _ hkne, dictGet_foldSet_mem kvs _ k v hkv hnd]
    · rw [hmerge, dictGet_del_self]

theorem C8_witness :
    (∀ d ∈ dbFix.documents, d.ecli_id ≠ some "EX") ∧
    get_document dbFix "EX" = .notFound ∧
    (∃ doc, get_document dbFix "E1" = .found doc ∧
      dictGet doc "judge" = some (PyVal.vstr "X") ∧
      dictGet doc "pdf_metadata" = none) := by
  refine ⟨?_, ?_, ?_⟩
  · intro d hd
    fin_cases hd <;> simp
  · exact (C8_lookup_notfound_and_merge dbFix "EX").1 (by intro d hd; fin_cases hd <;> simp)
  · rcases (C8_lookup_notfound_and_merge dbFix "E1").2 _ _ "\x7b\"judge\": \"X\"\x7d"
      [("judge", JVal.vstr "X")] rfl rfl rfl (by decide) with ⟨doc, h1, h2, h3⟩
    exact ⟨doc, h1, h2 "judge" (JVal.vstr "X") (by simp) (by decide), h3⟩

/-- C8 (counterexample to the claim as stated): a blob that deserializes to
the mapping `[("pdf_metadata", "y")]` cannot yield a result that both
contains every blob key at top level and lacks the raw blob field — the
two requirements of the claim contradict each other for this input (the code
deletes the field). -/
theorem C8_counterexample :
    json_loads_obj "\x7b\"pdf_metadata\": \"y\"\x7d" =
      some [("pdf_metadata", JVal.vstr "y")] ∧
    ¬ (∃ doc, get_document dbBlobSelfKey "E1" = .found doc ∧
        (∀ k v, (k, v) ∈ [("pdf_metadata", JVal.vstr "y")] →
          dictGet doc k = some (jToPy v)) ∧
        dictGet doc "pdf_metadata" = none) := by
  refine ⟨rfl, ?_⟩
  rintro ⟨doc, -, hall, hnone⟩
  have hv := hall "pdf_metadata" (JVal.vstr "y") (by simp)
  rw [hnone] at hv
  exact Option.noConfusion hv

/-- C9 (amended): every core operation releases its connection on its normal
completion paths (`get_recent_documents` also on its caught-error path), and
`search_documents` releases it whenever it returns a result — but see the
counterexample: on its exception exit the connection stays open. -/
theorem C9_normal_paths_release (db : DB) (q : SearchQuery) (limit : Nat)
    (eid : String) :
    get_corpus_stats_connClosed db = true ∧
    aggregation_connClosed db = true ∧
    get_recent_documents_connClosed db limit = true ∧
    get_document_connClosed db eid = true ∧
    (∀ rows, (search_documents_traced db q).result = .ok rows →
      (search_documents_traced db q).connClosed = true) := by
  refine ⟨?_, rfl, rfl, rfl, ?_⟩
  · unfold get_corpus_stats_connClosed
    cases latest_corpus_stats db <;> rfl
  · intro rows h
    unfold search_documents_traced at h ⊢
    cases hpq : parseQuery q with
    | error e => rw [hpq] at h; exact Except.noConfusion h
    | ok f => rfl

theorem C9_witness :
    (search_documents_traced dbFix {}).result =
      .ok (execSearch dbFix ⟨none, none, none, none⟩) ∧
    (search_documents_traced dbFix {}).connClosed = true :=
  ⟨rfl, (C9_normal_paths_release dbFix {} 10 "E1").2.2.2.2 _ rfl⟩

/-- C9 (counterexample to the claim as stated): a non-numeric `min_pages`
makes `search_documents` propagate the error with its connection still open
(no `finally` guards `conn.close()`). -/
theorem C9_counterexample :
    (search_documents_traced dbFix { min_pages := some "abc" }).result =
      .error .invalidFilterValue ∧
    (search_documents_traced dbFix { min_pages := some "abc" }).connClosed = false :=
  ⟨rfl, rfl⟩

/-- C10: when the latest snapshot row exists but its `courts` (or `years`)
field is NULL or the empty string, `get_corpus_stats` returns that field
exactly as stored; the decode-or-default substitution applies only to
non-empty strings. -/
theorem C10_falsy_fields_passed_through (db : DB) (row : CorpusStatsRow)
    (hrow : latest_corpus_stats db = some row) :
    ((row.courts = none ∨ row.courts = some "") →
      (get_corpus_stats db).courts = .raw row.courts) ∧
    ((row.years = none ∨ row.years = some "") →
      (get_corpus_stats db).years = .raw row.years) := by
  unfold get_corpus_stats
  rw [hrow]
  constructor
  · intro h
    show decodeStatsField row.courts = StatsField.raw row.courts
    rcases h with h | h <;> rw [h] <;> rfl
  · intro h
    show decodeStatsField row.years = StatsField.raw row.years
    rcases h with h | h <;> rw [h] <;> rfl

theorem C10_witness :
    latest_corpus_stats dbSnapRaw = some snapRowRaw ∧
    (snapRowRaw.courts = none ∨ snapRowRaw.courts = some "") ∧
    (snapRowRaw.years = none ∨ snapRowRaw.years = some "") ∧
    (get_corpus_stats dbSnapRaw).courts = .raw none ∧
    (get_corpus_stats dbSnapRaw).years = .raw (some "") := by
  refine ⟨rfl, Or.inl rfl, Or.inr rfl, ?_, ?_⟩
  · exact (C10_falsy_fields_passed_through dbSnapRaw snapRowRaw rfl).1 (Or.inl rfl)
  · exact (C10_falsy_fields_passed_through dbSnapRaw snapRowRaw rfl).2 (Or.inr rfl)

end Ecli
